import Mathlib

/-!
Shallow embedding of the chatserver socket layer.

The repository contains two socket-handler implementations:
  - `src/unnamed/part_001` (socketHandler.js, the synthesized-string-callId /
    explicit-sdp version the spec declares canonical), embedded below with
    unprefixed names; its module state is `activeUsers : Map userId -> socket`
    and `activeCallSessions : Map callId -> session`.
  - `src/unnamed/part_000` (DB-integer-callId version), whose call-log
    handlers are embedded with a `p0_` prefix; its call state lives in the
    `call_logs` table rows.

JavaScript `Map`s are embedded as association lists with insertion-order
semantics: `set` replaces in place or appends, `get` finds the unique entry,
`delete` removes it. Handlers are pure functions from the pre-state and the
event payload (plus the values the database returns, passed as arguments) to
a `HandlerResult` holding the post-state, the rows inserted into the durable
store, and the socket events emitted.
-/

abbrev UserId := Nat
abbrev SocketId := Nat

/-- Call-session record stored in `activeCallSessions` (part_001 lines 138-146,
mutated in place by answer_call lines 197-199). -/
structure CallSession where
  callId : String
  callerId : UserId
  receiverId : UserId
  callType : String
  status : String
  createdAt : Nat
  answeredAt : Option Nat
  sdp : Option String
deriving Repr, DecidableEq

/-- Row inserted into `call_logs` by part_001 end_call (lines 317-321). -/
structure CallLogInsert where
  callerId : UserId
  receiverId : UserId
  callType : String
  callStatus : String
  duration : Nat
deriving Repr, DecidableEq

/-- Row inserted into `messages` by part_001 send_message (lines 73-78). -/
structure MessageInsert where
  conversationId : Nat
  senderId : UserId
  messageText : String
  messageType : String
  isRead : Bool
deriving Repr, DecidableEq

/-- Socket events emitted by the part_001 handlers (payload fields that are
pure database echoes, such as user names, are carried as given). -/
inductive Event where
  | errorMsg (toUser : UserId) (message : String)
  | messageSent (toUser : UserId) (messageId : Nat) (createdAt : Nat)
  | newMessage (toUser : UserId) (conversationId : Nat) (messageId : Nat)
      (senderId : UserId) (messageText : String) (messageType : String)
  | userStatusChanged (userId : UserId) (online : Bool)
  | connectionConfirmed (userId : UserId)
  | incomingCall (toUser : UserId) (callId : String) (callerId : UserId)
      (callerName : String) (callType : String)
  | callInitiated (toUser : UserId) (callId : String) (receiverId : UserId)
      (callType : String)
  | callError (toUser : UserId) (message : String) (receiverId : UserId)
  | callAnswered (toUser : UserId) (callId : String) (receiverId : UserId)
      (receiverName : String) (sdp : String) (callType : String)
  | callConnected (toUser : UserId) (callId : String)
  | callRejected (toUser : UserId) (callId : String) (reason : String)
  | callEnded (toUser : UserId) (callId : String) (reason : String)
      (duration : Option Nat)
  | callFailed (toUser : UserId) (message : String)
deriving Repr, DecidableEq

/-- The part_001 module-level mutable state: `activeUsers` (userId to socket)
and `activeCallSessions` (keyed by callId). -/
structure ServerState where
  activeUsers : List (UserId × SocketId)
  activeCallSessions : List CallSession
deriving Repr, DecidableEq

/-- Result of running one handler: post-state, rows written to the durable
store, and events emitted. -/
structure HandlerResult where
  state : ServerState
  persistedCalls : List CallLogInsert
  persistedMessages : List MessageInsert
  emitted : List Event
deriving Repr, DecidableEq

/-- `activeUsers.get(u)` -/
def userGet (l : List (UserId × SocketId)) (u : UserId) : Option SocketId :=
  (l.find? (fun p => p.1 == u)).map (fun p => p.2)

/-- `activeUsers.set(u, sid)`: replace in place if present, else append. -/
def userSet (l : List (UserId × SocketId)) (u : UserId) (sid : SocketId) :
    List (UserId × SocketId) :=
  if l.any (fun p => p.1 == u) then
    l.map (fun p => if p.1 == u then (u, sid) else p)
  else l ++ [(u, sid)]

/-- `activeUsers.delete(u)` -/
def userDelete (l : List (UserId × SocketId)) (u : UserId) :
    List (UserId × SocketId) :=
  l.filter (fun p => p.1 != u)

/-- `activeCallSessions.get(cid)` -/
def sessGet (l : List CallSession) (cid : String) : Option CallSession :=
  l.find? (fun cs => cs.callId == cid)

/-- `activeCallSessions.set(cs.callId, cs)` (also models in-place mutation of
a stored session object). -/
def sessSet (l : List CallSession) (cs : CallSession) : List CallSession :=
  if l.any (fun x => x.callId == cs.callId) then
    l.map (fun x => if x.callId == cs.callId then cs else x)
  else l ++ [cs]

/-- `activeCallSessions.delete(cid)` -/
def sessDelete (l : List CallSession) (cid : String) : List CallSession :=
  l.filter (fun cs => cs.callId != cid)

/-- part_001 lines 31-63, the user_connected handler: registers the presence
entry (last registration wins) and broadcasts the status change. -/
def user_connected (s : ServerState) (userId : UserId) (socketId : SocketId) :
    HandlerResult :=
  { state := { s with activeUsers := userSet s.activeUsers userId socketId }
    persistedCalls := []
    persistedMessages := []
    emitted := [Event.userStatusChanged userId true,
                Event.connectionConfirmed userId] }

/-- part_001 lines 67-118, the send_message handler. `dbResult` is the value
returned by the INSERT INTO messages query: `none` models the query throwing
(caught at line 114, which emits the error event and skips everything after
the insert), `some (id, createdAt)` the RETURNING row. `participants` is the
result of the conversation_participants query (the code relays only to
`rows[0]`), and relaying happens only if that recipient is in activeUsers. -/
def send_message (s : ServerState) (senderId : UserId) (conversationId : Nat)
    (messageText : String) (messageType : String)
    (dbResult : Option (Nat × Nat)) (participants : List UserId) :
    HandlerResult :=
  match dbResult with
  | none =>
      { state := s, persistedCalls := [], persistedMessages := [],
        emitted := [Event.errorMsg senderId "Failed to send message"] }
  | some (messageId, createdAt) =>
      let relays : List Event :=
        match participants with
        | [] => []
        | receiverId :: _ =>
            match userGet s.activeUsers receiverId with
            | some _ =>
                [Event.newMessage receiverId conversationId messageId senderId
                  messageText messageType]
            | none => []
      { state := s
        persistedCalls := []
        persistedMessages :=
          [{ conversationId := conversationId, senderId := senderId,
             messageText := messageText, messageType := messageType,
             isRead := false }]
        emitted := relays ++ [Event.messageSent senderId messageId createdAt] }

/-- part_001 line 127: the synthesized call identifier
callerId + underscore + receiverId + underscore + Date.now(). -/
def mkCallId (callerId receiverId now : Nat) : String :=
  Nat.repr callerId ++ "_" ++ Nat.repr receiverId ++ "_" ++ Nat.repr now

/-- part_001 lines 122-182, the initiate_call handler. `now` is Date.now(),
`callerName` the name returned by the users query. The session is stored
first; if the receiver is offline it is deleted again and call_error is
emitted. No call_logs row is written on this path. -/
def initiate_call (s : ServerState) (callerId : UserId) (receiverId : UserId)
    (callType : String) (callerName : String) (now : Nat) : HandlerResult :=
  let callId := mkCallId callerId receiverId now
  let sessions1 := sessSet s.activeCallSessions
    { callId := callId, callerId := callerId, receiverId := receiverId,
      callType := callType, status := "ringing", createdAt := now,
      answeredAt := none, sdp := none }
  match userGet s.activeUsers receiverId with
  | some _ =>
      { state := { s with activeCallSessions := sessions1 }
        persistedCalls := [], persistedMessages := []
        emitted := [Event.incomingCall receiverId callId callerId callerName
                      callType,
                    Event.callInitiated callerId callId receiverId callType] }
  | none =>
      { state := { s with activeCallSessions := sessDelete sessions1 callId }
        persistedCalls := [], persistedMessages := []
        emitted := [Event.callError callerId "User is offline" receiverId] }

/-- part_001 lines 184-231, the answer_call handler. Only absence of the
session is checked; any present session (whatever its status) is set to
active with the supplied sdp and answeredAt := now. `receiverName` is the
name returned by the users query. -/
def answer_call (s : ServerState) (senderId : UserId) (callId : String)
    (sdp : String) (receiverName : String) (now : Nat) : HandlerResult :=
  match sessGet s.activeCallSessions callId with
  | none =>
      { state := s, persistedCalls := [], persistedMessages := [],
        emitted := [Event.errorMsg senderId "Call not found"] }
  | some cs =>
      let cs' := { cs with status := "active", sdp := some sdp,
                           answeredAt := some now }
      let toCaller : List Event :=
        match userGet s.activeUsers cs.callerId with
        | some _ => [Event.callAnswered cs.callerId callId senderId
                       receiverName sdp cs.callType]
        | none => []
      { state := { s with activeCallSessions := sessSet s.activeCallSessions cs' }
        persistedCalls := [], persistedMessages := []
        emitted := toCaller ++ [Event.callConnected senderId callId] }

/-- part_001 lines 233-259, the reject_call handler: silently returns if the
session is absent; otherwise notifies the caller (if online) and deletes the
session. Nothing is persisted. -/
def reject_call (s : ServerState) (senderId : UserId) (callId : String) :
    HandlerResult :=
  match sessGet s.activeCallSessions callId with
  | none =>
      { state := s, persistedCalls := [], persistedMessages := [], emitted := [] }
  | some cs =>
      let toCaller : List Event :=
        match userGet s.activeUsers cs.callerId with
        | some _ => [Event.callRejected cs.callerId callId "rejected"]
        | none => []
      { state := { s with activeCallSessions := sessDelete s.activeCallSessions callId }
        persistedCalls := [], persistedMessages := []
        emitted := toCaller }

/-- part_001 lines 294-339, the end_call handler: silently returns if the
session is absent; otherwise persists a call_logs row with status
"completed" and duration floor((now - createdAt) / 1000) regardless of the
session status, notifies the other party (if online), and deletes the
session. -/
def end_call (s : ServerState) (senderId : UserId) (callId : String)
    (now : Nat) : HandlerResult :=
  match sessGet s.activeCallSessions callId with
  | none =>
      { state := s, persistedCalls := [], persistedMessages := [], emitted := [] }
  | some cs =>
      let otherUserId := if cs.callerId == senderId then cs.receiverId
                         else cs.callerId
      let duration := (now - cs.createdAt) / 1000
      let toOther : List Event :=
        match userGet s.activeUsers otherUserId with
        | some _ => [Event.callEnded otherUserId callId "ended_by_user"
                       (some duration)]
        | none => []
      { state := { s with activeCallSessions := sessDelete s.activeCallSessions callId }
        persistedCalls := [{ callerId := cs.callerId,
                             receiverId := cs.receiverId,
                             callType := cs.callType,
                             callStatus := "completed",
                             duration := duration }]
        persistedMessages := []
        emitted := toOther }

/-- One iteration of the disconnect cleanup loop (part_001 lines 365-384):
a session involving `userId` is deleted after notifying its other party if
that party is still in `users1` (the registry after the delete at line 348);
other sessions are kept. -/
def disconnectStep (userId : UserId) (users1 : List (UserId × SocketId))
    (acc : List CallSession × List Event) (cs : CallSession) :
    List CallSession × List Event :=
  if cs.callerId == userId || cs.receiverId == userId then
    match userGet users1
        (if cs.callerId == userId then cs.receiverId else cs.callerId) with
    | some _ =>
        (acc.1, acc.2 ++ [Event.callEnded
          (if cs.callerId == userId then cs.receiverId else cs.callerId)
          cs.callId "user_disconnected" none])
    | none => (acc.1, acc.2)
  else (acc.1 ++ [cs], acc.2)

/-- part_001 lines 343-389, the disconnect handler: deletes the presence
entry for `socket.userId` unconditionally (line 348 never inspects which
socket disconnected, `socketId` is unused), broadcasts the offline status,
then scans activeCallSessions and removes every session involving the user,
emitting call_ended with reason "user_disconnected" to reachable
counterparts. No call_logs row is written. -/
def disconnect (s : ServerState) (userId : UserId) (socketId : SocketId) :
    HandlerResult :=
  let users1 := userDelete s.activeUsers userId
  let scanned := s.activeCallSessions.foldl (disconnectStep userId users1)
    ([], [Event.userStatusChanged userId false])
  { state := { activeUsers := users1, activeCallSessions := scanned.1 }
    persistedCalls := [], persistedMessages := []
    emitted := scanned.2 }

/-! ### part_000 call-log handlers (src/unnamed/part_000) -/

/-- A call_logs row as used by part_000 (integer id, status, timestamps). -/
structure CallLogRow where
  id : Nat
  callerId : UserId
  receiverId : UserId
  callType : String
  callStatus : String
  startedAt : Option Nat
  endedAt : Option Nat
  duration : Option Nat
deriving Repr, DecidableEq

/-- part_000 lines 149-194, the initiate_call handler: inserts a call_logs
row with status "calling" (the fresh serial id is modelled as one past the
current row count); if the receiver is offline, emits call_failed and
updates the row to "missed". -/
def p0_initiate_call (rows : List CallLogRow)
    (connectedUsers : List (UserId × SocketId)) (callerId : UserId)
    (receiverId : UserId) (callType : String) :
    List CallLogRow × List Event :=
  let callId := rows.length + 1
  let newRow : CallLogRow :=
    { id := callId, callerId := callerId, receiverId := receiverId,
      callType := callType, callStatus := "calling", startedAt := none,
      endedAt := none, duration := none }
  let rows1 := rows ++ [newRow]
  match userGet connectedUsers receiverId with
  | some _ =>
      (rows1, [Event.incomingCall receiverId (Nat.repr callId) callerId ""
                 callType])
  | none =>
      (rows1.map (fun r => if r.id == callId
          then { r with callStatus := "missed" } else r),
       [Event.callFailed callerId "User is offline"])

/-- part_000 lines 197-219, the answer_call handler: updates the row to
status "answered" with started_at := CURRENT_TIMESTAMP. -/
def p0_answer_call (rows : List CallLogRow) (callId : Nat) (now : Nat) :
    List CallLogRow :=
  rows.map (fun r => if r.id == callId
    then { r with callStatus := "answered", startedAt := some now } else r)

/-- part_000 lines 255-292, the end_call handler: reads started_at for the
row; if the row exists and started_at is set, updates to status "ended" with
ended_at := now and duration := floor((now - startedAt) / 1000); otherwise
runs the UPDATE to status "missed" (a no-op when the row is absent). -/
def p0_end_call (rows : List CallLogRow) (callId : Nat) (now : Nat) :
    List CallLogRow :=
  let started : Option Nat :=
    match rows.find? (fun r => r.id == callId) with
    | some row => row.startedAt
    | none => none
  match started with
  | some t0 =>
      rows.map (fun r => if r.id == callId
        then { r with callStatus := "ended", endedAt := some now,
                      duration := some ((now - t0) / 1000) } else r)
  | none =>
      rows.map (fun r => if r.id == callId
        then { r with callStatus := "missed" } else r)

/-! ### Lemmas about the embedded map operations -/

lemma find?_cons_pos {α : Type} (p : α → Bool) (a : α) (l : List α)
    (h : p a = true) : (a :: l).find? p = some a := by
  simp [List.find?_cons, h]

lemma find?_cons_neg {α : Type} (p : α → Bool) (a : α) (l : List α)
    (h : p a = false) : (a :: l).find? p = l.find? p := by
  simp [List.find?_cons, h]

lemma find?_userDelete_self (l : List (UserId × SocketId)) (u : UserId) :
    (userDelete l u).find? (fun p => p.1 == u) = none := by
  rw [List.find?_eq_none]
  intro p hp
  have h2 := (List.mem_filter.mp hp).2
  simp only [bne_iff_ne, ne_eq] at h2
  simp [h2]

lemma userGet_userDelete_self (l : List (UserId × SocketId)) (u : UserId) :
    userGet (userDelete l u) u = none := by
  unfold userGet
  rw [find?_userDelete_self]
  rfl

lemma find?_userDelete_ne (l : List (UserId × SocketId)) (u v : UserId)
    (h : v ≠ u) :
    (userDelete l u).find? (fun p => p.1 == v) = l.find? (fun p => p.1 == v) := by
  induction l with
  | nil => rfl
  | cons a l ih =>
    unfold userDelete at *
    rw [List.filter_cons]
    by_cases ha : a.1 = u
    · have hbne : (a.1 != u) = false := by simp [ha]
      rw [hbne]
      simp only [Bool.false_eq_true, if_false]
      have hav : (a.1 == v) = false := by
        simp only [beq_eq_false_iff_ne, ne_eq, ha]
        exact fun hh => h hh.symm
      rw [find?_cons_neg _ a l hav]
      exact ih
    · have hbne : (a.1 != u) = true := by simp [ha]
      rw [hbne]
      simp only [if_true]
      by_cases hv : (a.1 == v) = true
      · rw [find?_cons_pos _ a _ hv, find?_cons_pos _ a l hv]
      · have hv' : (a.1 == v) = false := Bool.eq_false_iff.mpr hv
        rw [find?_cons_neg _ a _ hv', find?_cons_neg _ a l hv']
        exact ih

lemma userGet_userDelete_ne (l : List (UserId × SocketId)) (u v : UserId)
    (h : v ≠ u) : userGet (userDelete l u) v = userGet l v := by
  unfold userGet
  rw [find?_userDelete_ne l u v h]

lemma sessGet_sessDelete_self (l : List CallSession) (cid : String) :
    sessGet (sessDelete l cid) cid = none := by
  unfold sessGet sessDelete
  rw [List.find?_eq_none]
  intro cs hcs
  have h2 := (List.mem_filter.mp hcs).2
  simp only [bne_iff_ne, ne_eq] at h2
  simp [h2]

lemma find?_map_replace_self (c : CallSession) :
    ∀ l : List CallSession, l.any (fun x => x.callId == c.callId) = true →
      (l.map (fun x => if x.callId == c.callId then c else x)).find?
        (fun x => x.callId == c.callId) = some c := by
  intro l
  induction l with
  | nil => intro h; simp at h
  | cons a l ih =>
    intro h
    rw [List.map_cons]
    by_cases ha : (a.callId == c.callId) = true
    · rw [if_pos ha]
      exact find?_cons_pos _ c _ (by simp)
    · have ha' : (a.callId == c.callId) = false := Bool.eq_false_iff.mpr ha
      rw [if_neg ha, find?_cons_neg _ a _ ha']
      apply ih
      simp only [List.any_cons, Bool.or_eq_true] at h
      rcases h with h | h
      · exact absurd h ha
      · exact h

lemma sessGet_sessSet (l : List CallSession) (c : CallSession) :
    sessGet (sessSet l c) c.callId = some c := by
  unfold sessGet sessSet
  by_cases h : l.any (fun x => x.callId == c.callId) = true
  · rw [if_pos h]
    exact find?_map_replace_self c l h
  · rw [if_neg h, List.find?_append]
    have hnone : l.find? (fun x => x.callId == c.callId) = none := by
      rw [List.find?_eq_none]
      intro x hx hpx
      exact h (List.any_eq_true.mpr ⟨x, hx, hpx⟩)
    rw [hnone]
    simp [List.find?]

lemma sessKeys_sessSet_of_any (l : List CallSession) (c : CallSession)
    (h : l.any (fun x => x.callId == c.callId) = true) :
    (sessSet l c).map (fun cs => cs.callId) = l.map (fun cs => cs.callId) := by
  unfold sessSet
  rw [if_pos h, List.map_map]
  apply List.map_congr_left
  intro x _
  by_cases hx : (x.callId == c.callId) = true
  · simp only [Function.comp_apply, if_pos hx]
    exact (beq_iff_eq.mp hx).symm
  · simp only [Function.comp_apply, if_neg hx]

lemma sessKeys_nodup_sessSet (l : List CallSession) (c : CallSession)
    (h : (l.map (fun cs => cs.callId)).Nodup) :
    ((sessSet l c).map (fun cs => cs.callId)).Nodup := by
  by_cases ha : l.any (fun x => x.callId == c.callId) = true
  · rw [sessKeys_sessSet_of_any l c ha]
    exact h
  · unfold sessSet
    rw [if_neg ha]
    simp only [List.map_append, List.map_cons, List.map_nil]
    have hnot : c.callId ∉ l.map (fun cs => cs.callId) := by
      intro hmem
      rcases List.mem_map.mp hmem with ⟨x, hx, hkey⟩
      exact ha (List.any_eq_true.mpr ⟨x, hx, by simp [hkey]⟩)
    simp [List.nodup_append, h, hnot]

lemma sessKeys_nodup_filter (l : List CallSession) (p : CallSession → Bool)
    (h : (l.map (fun cs => cs.callId)).Nodup) :
    ((l.filter p).map (fun cs => cs.callId)).Nodup :=
  h.sublist ((List.filter_sublist l).map _)

lemma disconnect_foldl_fst (userId : UserId)
    (users1 : List (UserId × SocketId)) :
    ∀ (l : List CallSession) (acc : List CallSession × List Event),
      (l.foldl (disconnectStep userId users1) acc).1 =
        acc.1 ++ l.filter
          (fun cs => !(cs.callerId == userId || cs.receiverId == userId)) := by
  intro l
  induction l with
  | nil => intro acc; simp
  | cons cs l ih =>
    intro acc
    rw [List.foldl_cons, ih, List.filter_cons]
    unfold disconnectStep
    by_cases h : (cs.callerId == userId || cs.receiverId == userId) = true
    · rw [if_pos h, h]
      simp only [Bool.not_true, Bool.false_eq_true, if_false]
      cases userGet users1
          (if cs.callerId == userId then cs.receiverId else cs.callerId) <;> rfl
    · have h' : (cs.callerId == userId || cs.receiverId == userId) = false :=
        Bool.eq_false_iff.mpr h
      rw [if_neg h, h']
      simp only [Bool.not_false, if_true]
      simp

lemma disconnect_foldl_snd_all (userId : UserId)
    (users1 : List (UserId × SocketId)) (P : Event → Bool)
    (hP : ∀ toUser cid,
      P (Event.callEnded toUser cid "user_disconnected" none) = true) :
    ∀ (l : List CallSession) (acc : List CallSession × List Event),
      acc.2.all P = true →
      (l.foldl (disconnectStep userId users1) acc).2.all P = true := by
  intro l
  induction l with
  | nil => intro acc h; simpa using h
  | cons cs l ih =>
    intro acc hacc
    rw [List.foldl_cons]
    apply ih
    unfold disconnectStep
    by_cases h : (cs.callerId == userId || cs.receiverId == userId) = true
    · rw [if_pos h]
      cases hu : userGet users1
          (if cs.callerId == userId then cs.receiverId else cs.callerId) with
      | some sid =>
        simp only [hu]
        simp [hacc, hP]
      | none =>
        simp only [hu]
        exact hacc
    · rw [if_neg h]
      simpa using hacc

lemma disconnect_sessions (s : ServerState) (userId : UserId)
    (socketId : SocketId) :
    (disconnect s userId socketId).state.activeCallSessions =
      s.activeCallSessions.filter
        (fun cs => !(cs.callerId == userId || cs.receiverId == userId)) := by
  show (s.activeCallSessions.foldl
      (disconnectStep userId (userDelete s.activeUsers userId))
      ([], [Event.userStatusChanged userId false])).1 = _
  rw [disconnect_foldl_fst]
  simp

lemma find?_map_update (cid : Nat) (g : CallLogRow → CallLogRow)
    (hg : ∀ r, (g r).id = r.id) :
    ∀ (rows : List CallLogRow) (row : CallLogRow),
      rows.find? (fun r => r.id == cid) = some row →
      (rows.map (fun r => if r.id == cid then g r else r)).find?
        (fun r => r.id == cid) = some (g row) := by
  intro rows
  induction rows with
  | nil => intro row h; simp at h
  | cons a l ih =>
    intro row h
    rw [List.map_cons]
    by_cases ha : (a.id == cid) = true
    · rw [find?_cons_pos _ a l ha] at h
      injection h with h
      subst h
      rw [if_pos ha]
      have hga : ((g a).id == cid) = true := by rw [hg a]; exact ha
      exact find?_cons_pos _ (g a) _ hga
    · have ha' : (a.id == cid) = false := Bool.eq_false_iff.mpr ha
      rw [find?_cons_neg _ a l ha'] at h
      rw [if_neg ha, find?_cons_neg _ a _ ha']
      exact ih row h

lemma find?_map_update_none (cid : Nat) (g : CallLogRow → CallLogRow)
    (rows : List CallLogRow)
    (hfresh : rows.any (fun r => r.id == cid) = false) :
    (rows.map (fun r => if r.id == cid then g r else r)).find?
      (fun r => r.id == cid) = none := by
  rw [List.find?_eq_none]
  intro a ha
  rcases List.mem_map.mp ha with ⟨r0, hr0, rfl⟩
  have hr : (r0.id == cid) = false := by
    cases hb : (r0.id == cid) with
    | false => rfl
    | true =>
      have hany : rows.any (fun r => r.id == cid) = true :=
        List.any_eq_true.mpr ⟨r0, hr0, hb⟩
      rw [hany] at hfresh
      exact Bool.noConfusion hfresh
  rw [if_neg (by simp [hr])]
  simp [hr]

lemma sessGet_reject_call (s : ServerState) (u : UserId) (cid : String) :
    sessGet (reject_call s u cid).state.activeCallSessions cid = none := by
  cases h : sessGet s.activeCallSessions cid with
  | none => simp only [reject_call, h]
  | some cs => simp only [reject_call, h]; exact sessGet_sessDelete_self _ _

lemma sessGet_end_call (s : ServerState) (u : UserId) (cid : String)
    (now : Nat) :
    sessGet (end_call s u cid now).state.activeCallSessions cid = none := by
  cases h : sessGet s.activeCallSessions cid with
  | none => simp only [end_call, h]
  | some cs => simp only [end_call, h]; exact sessGet_sessDelete_self _ _

lemma reject_call_absent (s : ServerState) (u : UserId) (cid : String)
    (h : sessGet s.activeCallSessions cid = none) :
    reject_call s u cid = ⟨s, [], [], []⟩ := by
  simp only [reject_call, h]

lemma end_call_absent (s : ServerState) (u : UserId) (cid : String) (now : Nat)
    (h : sessGet s.activeCallSessions cid = none) :
    end_call s u cid now = ⟨s, [], [], []⟩ := by
  simp only [end_call, h]

/-! ### Claim theorems -/

/-- C1 counterexample: the claim states that the presence entry is removed
only if the stored handle still equals the disconnecting handle, so a stale
disconnect never evicts a newer registration. On part_001, user 1 registers
socket 10, then re-registers socket 20 (last registration wins, lookup
yields 20); when the superseded socket 10 fires its disconnect handler,
line 348 deletes the entry unconditionally, evicting the newer socket-20
registration instead of leaving it untouched. -/
theorem C1_counterexample :
    userGet ((user_connected (user_connected ⟨[], []⟩ 1 10).state
        1 20).state).activeUsers 1 = some 20 ∧
    userGet ((disconnect (user_connected (user_connected ⟨[], []⟩ 1 10).state
        1 20).state 1 10).state).activeUsers 1 = none := by
  decide

/-- C1 (amended): the part_001 disconnect handler removes the presence entry
for userId unconditionally: it never compares the stored handle with the
disconnecting socket (the result is the same whichever socket fired), so
after any disconnect event for userId the entry is gone, even when the
stored registration was newer; entries of other users are untouched. -/
theorem C1_amended_unregister_unconditional (s : ServerState)
    (userId : UserId) (sid1 sid2 : SocketId) :
    userGet (disconnect s userId sid1).state.activeUsers userId = none ∧
    disconnect s userId sid1 = disconnect s userId sid2 ∧
    (∀ v, v ≠ userId →
      userGet (disconnect s userId sid1).state.activeUsers v =
        userGet s.activeUsers v) := by
  refine ⟨?_, rfl, ?_⟩
  · show userGet (userDelete s.activeUsers userId) userId = none
    exact userGet_userDelete_self _ _
  · intro v hv
    show userGet (userDelete s.activeUsers userId) v = userGet s.activeUsers v
    exact userGet_userDelete_ne _ _ _ hv

/-- C1 witness: the amended theorem applied at a concrete registry holding
users 1 and 2, with user 1 disconnecting. -/
theorem C1_witness :
    userGet (disconnect ⟨[(1, 10), (2, 20)], []⟩ 1 10).state.activeUsers 1 =
      none ∧
    userGet (disconnect ⟨[(1, 10), (2, 20)], []⟩ 1 10).state.activeUsers 2 =
      userGet (ServerState.mk [(1, 10), (2, 20)] []).activeUsers 2 :=
  ⟨(C1_amended_unregister_unconditional ⟨[(1, 10), (2, 20)], []⟩ 1 10 10).1,
   (C1_amended_unregister_unconditional ⟨[(1, 10), (2, 20)], []⟩ 1 10 10).2.2
     2 (by decide)⟩

/-- C4 counterexample: the claim requires disconnect cleanup to resolve an
ACTIVE session as ENDED with a persisted duration computed from answeredAt,
and the counterpart to receive reason "peer_disconnected". On part_001, with
an ACTIVE answered session between caller 1 and receiver 2, the disconnect
of user 2 persists nothing at all and the counterpart receives reason
"user_disconnected". -/
theorem C4_counterexample :
    (disconnect ⟨[(1, 10), (2, 20)],
        [⟨"1_2_1000", 1, 2, "video", "active", 1000, some 1500, some "x"⟩]⟩
      2 20).persistedCalls = [] ∧
    (disconnect ⟨[(1, 10), (2, 20)],
        [⟨"1_2_1000", 1, 2, "video", "active", 1000, some 1500, some "x"⟩]⟩
      2 20).emitted =
      [Event.userStatusChanged 2 false,
       Event.callEnded 1 "1_2_1000" "user_disconnected" none] ∧
    "user_disconnected" ≠ "peer_disconnected" := by
  decide

lemma disconnect_foldl_mem_mono (userId : UserId)
    (users1 : List (UserId × SocketId)) :
    ∀ (l : List CallSession) (acc : List CallSession × List Event)
      (e : Event), e ∈ acc.2 →
      e ∈ (l.foldl (disconnectStep userId users1) acc).2 := by
  intro l
  induction l with
  | nil => intro acc e h; simpa using h
  | cons cs l ih =>
    intro acc e h
    rw [List.foldl_cons]
    apply ih
    unfold disconnectStep
    by_cases hc : (cs.callerId == userId || cs.receiverId == userId) = true
    · rw [if_pos hc]
      cases hu : userGet users1
          (if cs.callerId == userId then cs.receiverId else cs.callerId) with
      | some sid =>
        simp only [hu]
        exact List.mem_append_left _ h
      | none =>
        simp only [hu]
        exact h
    · rw [if_neg hc]
      exact h

lemma disconnect_foldl_mem (userId : UserId)
    (users1 : List (UserId × SocketId)) :
    ∀ (l : List CallSession) (acc : List CallSession × List Event)
      (cs : CallSession), cs ∈ l →
      (cs.callerId == userId || cs.receiverId == userId) = true →
      ∀ sid, userGet users1
        (if cs.callerId == userId then cs.receiverId else cs.callerId) =
        some sid →
      Event.callEnded
          (if cs.callerId == userId then cs.receiverId else cs.callerId)
          cs.callId "user_disconnected" none ∈
        (l.foldl (disconnectStep userId users1) acc).2 := by
  intro l
  induction l with
  | nil => intro acc cs hmem; exact absurd hmem (List.not_mem_nil cs)
  | cons a l ih =>
    intro acc cs hmem hcond sid hreach
    rw [List.foldl_cons]
    rcases List.mem_cons.mp hmem with heq | hmem'
    · subst heq
      apply disconnect_foldl_mem_mono
      unfold disconnectStep
      rw [if_pos hcond, hreach]
      simp
    · exact ih (disconnectStep userId users1 acc a) cs hmem' hcond sid hreach

/-- C4 (amended): the part_001 disconnect handler removes every session
referencing userId as caller or receiver; for each such session whose
counterpart is still reachable in the registry (after userId itself was
removed), the counterpart receives call_ended carrying that callId, reason
"user_disconnected" and no duration (every emitted call_ended carries that
reason and no duration); and it persists no outcome record, whatever the
session states were (RINGING and ACTIVE sessions are dropped
identically). -/
theorem C4_amended_disconnect_cleanup (s : ServerState) (userId : UserId)
    (socketId : SocketId) :
    (disconnect s userId socketId).persistedCalls = [] ∧
    (disconnect s userId socketId).state.activeCallSessions =
      s.activeCallSessions.filter
        (fun cs => !(cs.callerId == userId || cs.receiverId == userId)) ∧
    ((disconnect s userId socketId).emitted.all
      (fun e => match e with
        | Event.callEnded _ _ reason dur =>
            reason == "user_disconnected" && dur == none
        | _ => true)) = true ∧
    (∀ cs ∈ s.activeCallSessions,
      (cs.callerId == userId || cs.receiverId == userId) = true →
      ∀ sid, userGet (userDelete s.activeUsers userId)
          (if cs.callerId == userId then cs.receiverId else cs.callerId) =
        some sid →
      Event.callEnded
          (if cs.callerId == userId then cs.receiverId else cs.callerId)
          cs.callId "user_disconnected" none ∈
        (disconnect s userId socketId).emitted) := by
  refine ⟨rfl, disconnect_sessions s userId socketId, ?_, ?_⟩
  · show (s.activeCallSessions.foldl
        (disconnectStep userId (userDelete s.activeUsers userId))
        ([], [Event.userStatusChanged userId false])).2.all _ = true
    apply disconnect_foldl_snd_all
    · intro toUser cid
      rfl
    · rfl
  · intro cs hmem hcond sid hreach
    show _ ∈ (s.activeCallSessions.foldl
        (disconnectStep userId (userDelete s.activeUsers userId))
        ([], [Event.userStatusChanged userId false])).2
    exact disconnect_foldl_mem userId (userDelete s.activeUsers userId)
      s.activeCallSessions _ cs hmem hcond sid hreach

/-- C4 witness: the amended theorem applied at a concrete state holding an
active session between caller 1 and receiver 2 with both online; on the
disconnect of user 2, the reachable counterpart 1 receives call_ended for
the session with reason "user_disconnected" and no duration. -/
theorem C4_witness :
    Event.callEnded 1 "1_2_1000" "user_disconnected" none ∈
      (disconnect ⟨[(1, 10), (2, 20)],
          [⟨"1_2_1000", 1, 2, "video", "active", 1000, some 1500, some "x"⟩]⟩
        2 20).emitted := by
  have h := (C4_amended_disconnect_cleanup ⟨[(1, 10), (2, 20)],
    [⟨"1_2_1000", 1, 2, "video", "active", 1000, some 1500, some "x"⟩]⟩
    2 20).2.2.2 ⟨"1_2_1000", 1, 2, "video", "active", 1000, some 1500,
    some "x"⟩ (by decide) (by decide) 10 (by decide)
  exact h

/-- C5: disconnect cleanup in part_001 is exhaustive: after the handler for
userId completes, no session remains in the table referencing userId as
caller or receiver. -/
theorem C5_disconnect_cleanup_exhaustive (s : ServerState) (userId : UserId)
    (socketId : SocketId) :
    ((disconnect s userId socketId).state.activeCallSessions.all
      (fun cs => !(cs.callerId == userId) && !(cs.receiverId == userId)))
      = true := by
  rw [disconnect_sessions, List.all_eq_true]
  intro cs hcs
  have h2 := (List.mem_filter.mp hcs).2
  rw [Bool.not_or] at h2
  exact h2

/-- C7: in part_001 the effect of answer_call, reject_call and end_call on
the session table and on the durable store depends only on the supplied
callId, never on the identity of the sender: any authenticated user,
participant of the session or not, triggers exactly the same transition and
the same persisted record (only notification targets differ), because no
participant-membership check guards these handlers. -/
theorem C7_effect_independent_of_sender (s : ServerState) (callId : String)
    (u1 u2 : UserId) (sdp receiverName : String) (now : Nat) :
    (answer_call s u1 callId sdp receiverName now).state =
      (answer_call s u2 callId sdp receiverName now).state ∧
    (answer_call s u1 callId sdp receiverName now).persistedCalls =
      (answer_call s u2 callId sdp receiverName now).persistedCalls ∧
    (reject_call s u1 callId).state = (reject_call s u2 callId).state ∧
    (reject_call s u1 callId).persistedCalls =
      (reject_call s u2 callId).persistedCalls ∧
    (end_call s u1 callId now).state = (end_call s u2 callId now).state ∧
    (end_call s u1 callId now).persistedCalls =
      (end_call s u2 callId now).persistedCalls := by
  refine ⟨?_, ?_, ?_, ?_, ?_, ?_⟩ <;>
    cases h : sessGet s.activeCallSessions callId <;>
      simp [answer_call, reject_call, end_call, h]

/-- C9: part_001 send_message persists before any relay: when the INSERT
fails, nothing is persisted, no new_message is relayed and no
acknowledgment is sent (only the error event); when it succeeds, the
message row is persisted and the sender always receives message_sent with
the assigned id and timestamp, for every presence-registry content and
participant list (recipient reachability is irrelevant). -/
theorem C9_persist_before_relay (s : ServerState) (senderId : UserId)
    (conversationId : Nat) (messageText messageType : String)
    (messageId createdAt : Nat) (participants : List UserId) :
    send_message s senderId conversationId messageText messageType none
        participants =
      ⟨s, [], [], [Event.errorMsg senderId "Failed to send message"]⟩ ∧
    (send_message s senderId conversationId messageText messageType
        (some (messageId, createdAt)) participants).persistedMessages =
      [⟨conversationId, senderId, messageText, messageType, false⟩] ∧
    Event.messageSent senderId messageId createdAt ∈
      (send_message s senderId conversationId messageText messageType
        (some (messageId, createdAt)) participants).emitted := by
  refine ⟨rfl, ?_, ?_⟩
  · cases participants with
    | nil => rfl
    | cons r rest =>
      cases h : userGet s.activeUsers r <;> simp [send_message, h]
  · cases participants with
    | nil => simp [send_message]
    | cons r rest =>
      cases h : userGet s.activeUsers r <;> simp [send_message, h]

/-- C10: terminal transitions are idempotent in part_001: after a first
reject_call or end_call for a callId, the session is absent from the table,
so a second invocation (by any sender, at any time) returns with the state
unchanged, persists no record and emits no event. -/
theorem C10_terminal_idempotent (s : ServerState) (u1 u2 : UserId)
    (callId : String) (t1 t2 : Nat) :
    reject_call (reject_call s u1 callId).state u2 callId =
      ⟨(reject_call s u1 callId).state, [], [], []⟩ ∧
    end_call (end_call s u1 callId t1).state u2 callId t2 =
      ⟨(end_call s u1 callId t1).state, [], [], []⟩ := by
  constructor
  · exact reject_call_absent _ u2 callId (sessGet_reject_call s u1 callId)
  · exact end_call_absent _ u2 callId t2 (sessGet_end_call s u1 callId t1)

/-- C6 counterexample: the claim states answer_call requires the session to
be in RINGING and otherwise errors without touching the session. On
part_001, answering a session that is already ACTIVE (answeredAt 150, sdp
"old") succeeds: no error event is emitted (the caller gets call_answered
and the sender call_connected) and the session is mutated, overwriting sdp
and answeredAt. -/
theorem C6_counterexample :
    (answer_call ⟨[(1, 10), (2, 20)],
        [⟨"1_2_100", 1, 2, "video", "active", 100, some 150, some "old"⟩]⟩
      2 "1_2_100" "new" "Bob" 200).state.activeCallSessions =
      [⟨"1_2_100", 1, 2, "video", "active", 100, some 200, some "new"⟩] ∧
    (answer_call ⟨[(1, 10), (2, 20)],
        [⟨"1_2_100", 1, 2, "video", "active", 100, some 150, some "old"⟩]⟩
      2 "1_2_100" "new" "Bob" 200).emitted =
      [Event.callAnswered 1 "1_2_100" 2 "Bob" "new" "video",
       Event.callConnected 2 "1_2_100"] ∧
    [(⟨"1_2_100", 1, 2, "video", "active", 100, some 150, some "old"⟩ :
        CallSession)] ≠
      [(⟨"1_2_100", 1, 2, "video", "active", 100, some 200, some "new"⟩ :
        CallSession)] := by
  decide

/-- C6 (amended): part_001 answer_call checks only that the session exists:
if it is absent, an error is signaled and the operation is a no-op; if it is
present in any state whatsoever (including already ACTIVE), the session is
set to active with sdp and answeredAt overwritten, the sender receives
call_connected, and no invalid-state error exists. -/
theorem C6_amended_answer_requires_existence_only (s : ServerState)
    (senderId : UserId) (callId : String) (sdp receiverName : String)
    (now : Nat) :
    (sessGet s.activeCallSessions callId = none →
      answer_call s senderId callId sdp receiverName now =
        ⟨s, [], [], [Event.errorMsg senderId "Call not found"]⟩) ∧
    (∀ cs, sessGet s.activeCallSessions callId = some cs →
      sessGet (answer_call s senderId callId sdp receiverName
          now).state.activeCallSessions callId =
        some { cs with status := "active", sdp := some sdp, answeredAt := some now } ∧
      Event.callConnected senderId callId ∈
        (answer_call s senderId callId sdp receiverName now).emitted ∧
      (∀ m, Event.errorMsg senderId m ∉
        (answer_call s senderId callId sdp receiverName now).emitted)) := by
  constructor
  · intro h
    simp only [answer_call, h]
  · intro cs h
    have h' : s.activeCallSessions.find? (fun x => x.callId == callId) =
        some cs := h
    have hp := List.find?_some h'
    have hkey : cs.callId = callId := beq_iff_eq.mp hp
    refine ⟨?_, ?_, ?_⟩
    · simp only [answer_call, h]
      rw [← hkey]
      exact sessGet_sessSet _ _
    · simp only [answer_call, h]
      cases hu : userGet s.activeUsers cs.callerId <;> simp [hu]
    · intro m
      simp only [answer_call, h]
      cases hu : userGet s.activeUsers cs.callerId <;> simp [hu]

/-- C6 witness: the amended theorem applied to a concrete table holding a
ringing session and to one where the callId is absent. -/
theorem C6_witness :
    sessGet (answer_call ⟨[], [⟨"c1", 1, 2, "voice", "ringing", 0, none,
        none⟩]⟩ 2 "c1" "sdpX" "Bob" 5).state.activeCallSessions "c1" =
      some ⟨"c1", 1, 2, "voice", "active", 0, some 5, some "sdpX"⟩ ∧
    answer_call ⟨[], []⟩ 2 "c9" "sdpX" "Bob" 5 =
      ⟨⟨[], []⟩, [], [], [Event.errorMsg 2 "Call not found"]⟩ := by
  have h1 := (C6_amended_answer_requires_existence_only
    ⟨[], [⟨"c1", 1, 2, "voice", "ringing", 0, none, none⟩]⟩ 2 "c1" "sdpX"
    "Bob" 5).2 ⟨"c1", 1, 2, "voice", "ringing", 0, none, none⟩ rfl
  have h2 := (C6_amended_answer_requires_existence_only ⟨[], []⟩ 2 "c9"
    "sdpX" "Bob" 5).1 rfl
  exact ⟨h1.1, h2⟩

lemma p0_end_call_started (rows : List CallLogRow) (callId now t0 : Nat)
    (row : CallLogRow)
    (hfind : rows.find? (fun r => r.id == callId) = some row)
    (hst : row.startedAt = some t0) :
    p0_end_call rows callId now =
      rows.map (fun r => if r.id == callId
        then { r with callStatus := "ended", endedAt := some now,
                      duration := some ((now - t0) / 1000) }
        else r) := by
  simp only [p0_end_call, hfind, hst]

lemma p0_end_call_not_started (rows : List CallLogRow) (callId now : Nat)
    (row : CallLogRow)
    (hfind : rows.find? (fun r => r.id == callId) = some row)
    (hst : row.startedAt = none) :
    p0_end_call rows callId now =
      rows.map (fun r => if r.id == callId
        then { r with callStatus := "missed" } else r) := by
  simp only [p0_end_call, hfind, hst]

/-- C2 counterexample: the claim states that an endCall on a session still
RINGING persists MISSED with no duration, and an ACTIVE one persists ENDED
with duration now - answeredAt. On part_001, the table holds a session that
is still "ringing" with answeredAt unset (createdAt 1000); end_call at time
38000 nevertheless persists a call_logs row with status "completed" and
duration 37 seconds, computed from createdAt instead of answeredAt and in
spite of the call never connecting. -/
theorem C2_counterexample :
    sessGet (ServerState.mk [(1, 10), (2, 20)]
        [⟨"1_2_1000", 1, 2, "video", "ringing", 1000, none, none⟩]
      ).activeCallSessions "1_2_1000" =
      some ⟨"1_2_1000", 1, 2, "video", "ringing", 1000, none, none⟩ ∧
    (end_call ⟨[(1, 10), (2, 20)],
        [⟨"1_2_1000", 1, 2, "video", "ringing", 1000, none, none⟩]⟩
      1 "1_2_1000" 38000).persistedCalls =
      [⟨1, 2, "video", "completed", 37⟩] ∧
    "completed" ≠ "missed" := by
  decide

/-- C2 (amended): the stated duration semantics hold for the part_000
end_call handler, not for part_001. In part_000, answer_call stamps
started_at with the answer time t0; an end_call d seconds later updates the
row to status "ended" with duration exactly d, and an end_call on a row
whose started_at was never set (never answered) updates it to "missed",
leaving the duration field untouched. -/
theorem C2_amended_duration (rows : List CallLogRow) (callId : Nat)
    (row : CallLogRow) (t0 d now : Nat)
    (hfind : rows.find? (fun r => r.id == callId) = some row) :
    ((p0_end_call (p0_answer_call rows callId t0) callId
        (t0 + 1000 * d)).find? (fun r => r.id == callId) =
      some { row with callStatus := "ended", startedAt := some t0,
                      endedAt := some (t0 + 1000 * d), duration := some d }) ∧
    (row.startedAt = none →
      (p0_end_call rows callId now).find? (fun r => r.id == callId) =
        some { row with callStatus := "missed" }) := by
  constructor
  · have h1 := find?_map_update callId
      (fun r => { r with callStatus := "answered", startedAt := some t0 })
      (fun r => rfl) rows row hfind
    have hstep : p0_end_call (p0_answer_call rows callId t0) callId
        (t0 + 1000 * d) =
        (p0_answer_call rows callId t0).map (fun r => if r.id == callId
          then { r with callStatus := "ended",
                        endedAt := some (t0 + 1000 * d),
                        duration := some ((t0 + 1000 * d - t0) / 1000) }
          else r) :=
      p0_end_call_started _ callId (t0 + 1000 * d) t0 _ h1 rfl
    rw [hstep]
    have h2 := find?_map_update callId
      (fun r => { r with callStatus := "ended",
                         endedAt := some (t0 + 1000 * d),
                         duration := some ((t0 + 1000 * d - t0) / 1000) })
      (fun r => rfl) (p0_answer_call rows callId t0) _ h1
    have harith : (t0 + 1000 * d - t0) / 1000 = d := by
      rw [Nat.add_sub_cancel_left]
      exact Nat.mul_div_cancel_left d (by norm_num)
    simp only [harith]
    simp only [harith] at h2
    exact h2
  · intro hst
    rw [p0_end_call_not_started rows callId now row hfind hst]
    exact find?_map_update callId (fun r => { r with callStatus := "missed" })
      (fun r => rfl) rows row hfind

/-- C2 witness: the amended theorem at a concrete call_logs table: the call
answered at time 5000 and ended 37 seconds later is persisted as "ended"
with duration 37. -/
theorem C2_witness :
    (p0_end_call (p0_answer_call
        [⟨1, 7, 8, "video", "calling", none, none, none⟩] 1 5000) 1
        (5000 + 1000 * 37)).find? (fun r => r.id == 1) =
      some ⟨1, 7, 8, "video", "ended", some 5000, some (5000 + 1000 * 37),
        some 37⟩ := by
  have h := (C2_amended_duration
    [⟨1, 7, 8, "video", "calling", none, none, none⟩] 1
    ⟨1, 7, 8, "video", "calling", none, none, none⟩ 5000 37 0 (by decide)).1
  exact h

/-- C3 counterexample: the claim requires that an initiate_call towards an
offline receiver persists a MISSED record to the durable store. On
part_001, caller 1 (online) calls offline user 2: call_error is emitted and
the session is removed, exactly as claimed, but nothing at all is written
to call_logs on this path, so no missed record exists. -/
theorem C3_counterexample :
    (initiate_call ⟨[(1, 10)], []⟩ 1 2 "video" "Alice"
      1000).persistedCalls = [] ∧
    (initiate_call ⟨[(1, 10)], []⟩ 1 2 "video" "Alice" 1000).emitted =
      [Event.callError 1 "User is offline" 2] ∧
    (initiate_call ⟨[(1, 10)], []⟩ 1 2 "video" "Alice"
      1000).state.activeCallSessions = [] := by
  decide

/-- C3 (amended): for an initiate_call whose receiver is absent from the
presence registry, part_001 reports call_error to the caller and leaves no
session in the table but persists nothing; the missed outcome is persisted
only by the part_000 handler, which records status "missed" in call_logs
for the fresh row while emitting call_failed (not call_error) to the
caller. -/
theorem C3_amended_offline_initiate (s : ServerState) (callerId : UserId)
    (receiverId : UserId) (callType callerName : String) (now : Nat)
    (rows : List CallLogRow)
    (hoff : userGet s.activeUsers receiverId = none)
    (hfresh : rows.any (fun r => r.id == rows.length + 1) = false) :
    (initiate_call s callerId receiverId callType callerName now).emitted =
      [Event.callError callerId "User is offline" receiverId] ∧
    sessGet (initiate_call s callerId receiverId callType callerName
        now).state.activeCallSessions (mkCallId callerId receiverId now) =
      none ∧
    (initiate_call s callerId receiverId callType callerName
      now).persistedCalls = [] ∧
    (p0_initiate_call rows s.activeUsers callerId receiverId callType).2 =
      [Event.callFailed callerId "User is offline"] ∧
    (p0_initiate_call rows s.activeUsers callerId receiverId
        callType).1.find? (fun r => r.id == rows.length + 1) =
      some ⟨rows.length + 1, callerId, receiverId, callType, "missed",
        none, none, none⟩ := by
  refine ⟨?_, ?_, ?_, ?_, ?_⟩
  · simp only [initiate_call, hoff]
  · simp only [initiate_call, hoff]
    exact sessGet_sessDelete_self _ _
  · simp only [initiate_call, hoff]
  · simp only [p0_initiate_call, hoff]
  · simp only [p0_initiate_call, hoff]
    rw [List.map_append, List.find?_append]
    rw [show (rows.map (fun r => if r.id == rows.length + 1
          then { r with callStatus := "missed" } else r)).find?
          (fun r => r.id == rows.length + 1) = none from
        find?_map_update_none (rows.length + 1)
          (fun r => { r with callStatus := "missed" }) rows hfresh]
    simp [List.find?]

/-- C3 witness: the amended theorem at a concrete state where only caller 1
is online and the call_logs table is empty: part_000 persists the missed
row for (1, 2, video). -/
theorem C3_witness :
    (p0_initiate_call [] [(1, 10)] 1 2 "video").1.find?
      (fun r => r.id == 1) =
      some ⟨1, 1, 2, "video", "missed", none, none, none⟩ := by
  have h := C3_amended_offline_initiate ⟨[(1, 10)], []⟩ 1 2 "video" "Alice"
    1000 [] (by decide) (by decide)
  exact h.2.2.2.2

/-- C8 counterexample: the claim states every initiate_call allocates a
callId unique process-wide for the session lifetime, for all interleavings
including two initiations by the same pair. On part_001 the id is
caller_receiver_Date.now(), so two initiations by caller 1 to receiver 2 in
the same millisecond (a video call, then a voice call, both at t=1000)
collide on "1_2_1000": after the second initiation only one live session
remains, holding the second call's data, the first having been silently
overwritten while still live. -/
theorem C8_counterexample :
    mkCallId 1 2 1000 = "1_2_1000" ∧
    (initiate_call ⟨[(1, 10), (2, 20)], []⟩ 1 2 "video" "Alice"
      1000).state.activeCallSessions =
      [⟨"1_2_1000", 1, 2, "video", "ringing", 1000, none, none⟩] ∧
    (initiate_call (initiate_call ⟨[(1, 10), (2, 20)], []⟩ 1 2 "video"
        "Alice" 1000).state 1 2 "voice" "Alice"
      1000).state.activeCallSessions =
      [⟨"1_2_1000", 1, 2, "voice", "ringing", 1000, none, none⟩] := by
  decide

/-- C8 (amended): at any time the callIds of distinct live sessions are
distinct, because the table is keyed by callId: every part_001 handler
preserves distinctness of the stored keys. But initiate_call does not
allocate fresh ids: a second initiation by the same caller and receiver in
the same millisecond reuses the id and replaces the live session (see the
counterexample). -/
theorem C8_amended_distinct_keys (s : ServerState)
    (userId callerId receiverId senderId : UserId) (socketId : SocketId)
    (callType callerName sdp receiverName : String) (callId : String)
    (now : Nat)
    (h : (s.activeCallSessions.map (fun cs => cs.callId)).Nodup) :
    (((user_connected s userId socketId).state.activeCallSessions.map
      (fun cs => cs.callId)).Nodup) ∧
    (((initiate_call s callerId receiverId callType callerName
        now).state.activeCallSessions.map (fun cs => cs.callId)).Nodup) ∧
    (((answer_call s senderId callId sdp receiverName
        now).state.activeCallSessions.map (fun cs => cs.callId)).Nodup) ∧
    (((reject_call s senderId callId).state.activeCallSessions.map
      (fun cs => cs.callId)).Nodup) ∧
    (((end_call s senderId callId now).state.activeCallSessions.map
      (fun cs => cs.callId)).Nodup) ∧
    (((disconnect s userId socketId).state.activeCallSessions.map
      (fun cs => cs.callId)).Nodup) := by
  refine ⟨h, ?_, ?_, ?_, ?_, ?_⟩
  · cases hu : userGet s.activeUsers receiverId with
    | some sid =>
      simp only [initiate_call, hu]
      exact sessKeys_nodup_sessSet _ _ h
    | none =>
      simp only [initiate_call, hu]
      exact sessKeys_nodup_filter _ _ (sessKeys_nodup_sessSet _ _ h)
  · cases hc : sessGet s.activeCallSessions callId with
    | none => simp only [answer_call, hc]; exact h
    | some cs =>
      simp only [answer_call, hc]
      exact sessKeys_nodup_sessSet _ _ h
  · cases hc : sessGet s.activeCallSessions callId with
    | none => simp only [reject_call, hc]; exact h
    | some cs =>
      simp only [reject_call, hc]
      exact sessKeys_nodup_filter _ _ h
  · cases hc : sessGet s.activeCallSessions callId with
    | none => simp only [end_call, hc]; exact h
    | some cs =>
      simp only [end_call, hc]
      exact sessKeys_nodup_filter _ _ h
  · rw [disconnect_sessions]
    exact sessKeys_nodup_filter _ _ h

/-- C8 witness: the amended theorem applied at a table already holding one
session, showing key distinctness after an initiate_call. -/
theorem C8_witness :
    (((initiate_call ⟨[(1, 10), (2, 20)],
        [⟨"9_9_9", 9, 9, "voice", "ringing", 9, none, none⟩]⟩ 1 2 "video"
        "Alice" 1000).state.activeCallSessions.map
      (fun cs => cs.callId)).Nodup) := by
  have h := C8_amended_distinct_keys ⟨[(1, 10), (2, 20)],
    [⟨"9_9_9", 9, 9, "voice", "ringing", 9, none, none⟩]⟩ 1 1 2 1 10
    "video" "Alice" "sdpX" "Bob" "9_9_9" 1000 (by decide)
  exact h.2.1
